import Mathlib

/-!
Verification development for the round-orchestration core of the dnd_bot
repository.  The definitions below are shallow embeddings of the Python
source files src/bot/game/engine.py, src/bot/game/state.py,
src/bot/game/validation.py, src/bot/ai/ollama_client.py and
src/config/settings.py.  Database rows are modelled as Lean structures,
the SQLAlchemy session as an explicit DB value, datetimes as integer
seconds, and each db.commit() call as a fallible step (an Except value)
so that persistence failures can be injected.  Fields of the Python
models that none of the verified properties touch (hp, stats, inventory,
created_at, updated_at, active_encounters, guild/channel ids) are
omitted from the record types; they are never read by the embedded code
paths.
-/

namespace DndBot

/-- GameStatus enumeration (src/bot/game/models.py, class GameStatus). -/
inductive GameStatus
  | waiting
  | active
  | paused
  | ended
deriving DecidableEq

/-- LogType enumeration (src/bot/game/models.py, class LogType). -/
inductive LogType
  | narrative
  | combat
  | system
deriving DecidableEq

/-- Row of the players table (src/bot/game/models.py, class Player);
only the columns read by the engine paths under verification. -/
structure PlayerRec where
  id : Nat
  name : String
deriving DecidableEq

/-- Row of the games table (src/bot/game/models.py, class Game). -/
structure GameRec where
  id : Nat
  status : GameStatus
deriving DecidableEq

/-- Row of the game_sessions table (src/bot/game/models.py, class
GameSession).  The game_id column carries a uniqueness constraint in the
source schema: one session row per game. -/
structure SessionRec where
  game_id : Nat
  round_number : Nat
  current_turn : Option Nat
deriving DecidableEq

/-- Row of the actions table (src/bot/game/models.py, class Action).
Timestamps are modelled as integer seconds. -/
structure ActionRec where
  id : Nat
  game_id : Nat
  player_id : Nat
  action_text : String
  timestamp : Int
  processed : Bool
deriving DecidableEq

/-- Row of the game_logs table (src/bot/game/models.py, class GameLog). -/
structure LogRec where
  game_id : Nat
  message : String
  log_type : LogType
deriving DecidableEq

/-- The relational state behind the SQLAlchemy session: one list per
table, in insertion order (the order rows come back from unordered
queries). -/
structure DB where
  games : List GameRec
  sessions : List SessionRec
  players : List PlayerRec
  game_players : List (Nat × Nat)
  actions : List ActionRec
  logs : List LogRec
deriving DecidableEq

/-! Settings (src/config/settings.py) at their shipped default values. -/

/-- Settings.MIN_PLAYERS_FOR_ROUND, default 1. -/
def MIN_PLAYERS_FOR_ROUND : Nat := 1

/-- Settings.ROUND_TIMEOUT_SECONDS, default 300. -/
def ROUND_TIMEOUT_SECONDS : Int := 300

/-- Settings.STAT_POINT_BUY_MAX. -/
def STAT_POINT_BUY_MAX : Nat := 27

/-- Settings.STAT_MAX. -/
def STAT_MAX : Int := 15

/-- Settings.STAT_MIN. -/
def STAT_MIN : Int := 8

/-- Settings.STAT_POINT_COSTS: the point-buy cost table, none outside
the costed range. -/
def STAT_POINT_COSTS : Int → Option Nat := fun v =>
  match v with
  | 8 => some 0
  | 9 => some 1
  | 10 => some 2
  | 11 => some 3
  | 12 => some 4
  | 13 => some 5
  | 14 => some 7
  | 15 => some 9
  | 16 => some 12
  | 17 => some 15
  | 18 => some 19
  | _ => none

/-! Stat validation (src/bot/game/validation.py,
StatValidator.validate_stat_allocation).  The Python dict argument is
modelled as an association list in insertion order with distinct keys. -/

/-- The required_stats list from validation.py line 30. -/
def REQUIRED_STATS : List String := ["STR", "DEX", "CON", "INT", "WIS", "CHA"]

/-- First stat-limit violation in dict order, with the exact message the
source builds (validation.py lines 36-40). -/
def checkStatLimits : List (String × Int) → Option String
  | [] => none
  | (n, v) :: rest =>
    if v > STAT_MAX then
      some (n ++ " exceeds maximum: " ++ toString v ++ " (max: " ++ toString STAT_MAX ++ ")")
    else if v < STAT_MIN then
      some (n ++ " below minimum: " ++ toString v ++ " (min: " ++ toString STAT_MIN ++ ")")
    else checkStatLimits rest

/-- Total point cost accumulation (validation.py lines 43-49); stops
with the invalid-value message on the first value outside the table. -/
def sumStatCosts : List (String × Int) → Nat → Except String Nat
  | [], acc => Except.ok acc
  | (n, v) :: rest, acc =>
    match STAT_POINT_COSTS v with
    | some c => sumStatCosts rest (acc + c)
    | none => Except.error (n ++ " has invalid value: " ++ toString v ++ " (valid range: 8-15)")

/-- StatValidator.validate_stat_allocation (validation.py lines 18-58):
missing-stat check, per-stat limit check, point-cost sum, budget check. -/
def validate_stat_allocation (stats : List (String × Int)) : Bool × Option String :=
  match REQUIRED_STATS.find? (fun s => (stats.lookup s).isNone) with
  | some s => (false, some ("Missing stat: " ++ s))
  | none =>
    match checkStatLimits stats with
    | some msg => (false, some msg)
    | none =>
      match sumStatCosts stats 0 with
      | Except.error msg => (false, some msg)
      | Except.ok total =>
        if total > STAT_POINT_BUY_MAX then
          (false, some ("Total points exceeded: " ++ toString total ++ "/" ++
            toString STAT_POINT_BUY_MAX ++ ". Please redistribute your stat points."))
        else (true, none)

/-! Round scheduler (src/bot/game/engine.py,
GameEngine._should_process_round). -/

/-- Python min(pending, key=timestamp): the first action with minimal
timestamp (engine.py line 182). -/
def oldestAction (pending : List ActionRec) : Option ActionRec :=
  pending.foldl
    (fun acc a =>
      match acc with
      | none => some a
      | some b => if a.timestamp < b.timestamp then some a else some b)
    none

/-- GameEngine._should_process_round (engine.py lines 149-189).  The
num_players argument is len(game_state.players); uniqueness of acting
players is len(set(player_id)). -/
def should_process_round (num_players : Nat) (pending : List ActionRec)
    (force : Bool) (now : Int) : Bool :=
  if force then true
  else if pending.isEmpty then false
  else if pending.length ≥ MIN_PLAYERS_FOR_ROUND then
    if (pending.map (fun a => a.player_id)).dedup.length ≥ num_players then true
    else
      match oldestAction pending with
      | some a => decide (now - a.timestamp ≥ ROUND_TIMEOUT_SECONDS)
      | none => false
  else false

/-- Modelled from the spec: the scheduler as the claim words it, with
quorum read as every roster member having at least one pending action
and the timeout read as strictly exceeded.  Used only to compare the
claim against the source definition above. -/
def shouldResolveSpec (roster : List Nat) (pending : List ActionRec)
    (force : Bool) (now : Int) : Bool :=
  if force then true
  else if pending.isEmpty then false
  else if pending.length ≥ MIN_PLAYERS_FOR_ROUND then
    if roster.all (fun p => pending.any (fun a => a.player_id == p)) then true
    else
      match oldestAction pending with
      | some a => decide (now - a.timestamp > ROUND_TIMEOUT_SECONDS)
      | none => false
  else false

/-- The amended reading of the scheduler: the quorum test compares the
count of distinct acting players against the roster size, and the
timeout comparison is at-least rather than strictly-greater. -/
def shouldResolveAmended (num_players : Nat) (pending : List ActionRec)
    (force : Bool) (now : Int) : Bool :=
  force ||
    (!pending.isEmpty &&
      (decide (pending.length ≥ MIN_PLAYERS_FOR_ROUND) &&
        (decide ((pending.map (fun a => a.player_id)).dedup.length ≥ num_players) ||
          match oldestAction pending with
          | some a => decide (now - a.timestamp ≥ ROUND_TIMEOUT_SECONDS)
          | none => false)))

/-! Fallback narratives. -/

/-- One element of the player_actions list built in process_round
(engine.py lines 85-88). -/
structure PlayerAction where
  player_name : String
  action_text : String
deriving DecidableEq

/-- The fallback string process_round itself builds when the AI callback
raises or is absent (engine.py lines 116 and 119): only the action
texts, joined with commas. -/
def engineFallbackNarrative (pas : List PlayerAction) : String :=
  "*The actions unfold: " ++
    String.intercalate ", " (pas.map (fun a => a.action_text)) ++ "*"

/-- OllamaClient._fallback_narrative (src/bot/ai/ollama_client.py lines
151-157): participant name and action text pairs, joined with commas. -/
def fallback_narrative (pas : List PlayerAction) : String :=
  if pas.isEmpty then "*The party waits, watching the world around them...*"
  else
    "*The party acts: " ++
      String.intercalate ", " (pas.map (fun a => a.player_name ++ " " ++ a.action_text)) ++
      ". The world responds...*"

/-! The orchestrator (GameEngine.process_round, engine.py lines 33-147)
together with the pieces of GameStateManager it calls (state.py).  Each
db.commit() in the source is a fallible step: a FailSpec flag injects a
persistence failure at that commit, in which case the mutations of that
step are not durably applied and the exception propagates to the broad
except handler at engine.py line 143, which logs and returns None.  The
Except monad models that exception flow; the error payload is the DB as
already durably committed at the point of failure. -/

/-- Which db.commit() call fails, if any: lazy session creation
(state.py line 38), mark_actions_processed (state.py line 169), the
round-number update (engine.py line 131), log_game_event (state.py
line 129). -/
structure FailSpec where
  failCreate : Bool
  failMark : Bool
  failSession : Bool
  failLog : Bool
deriving DecidableEq

/-- No persistence failure anywhere. -/
def noFail : FailSpec := ⟨false, false, false, false⟩

/-- Outcome of the awaited ai_callback (engine.py line 109): raising an
exception, or returning either None or a string. -/
inductive AIResult
  | raises
  | giving (r : Option String)
deriving DecidableEq

/-- Query Game by id (state.py line 30): first row matching the id. -/
def findGame (db : DB) (gid : Nat) : Option GameRec :=
  db.games.find? (fun g => g.id == gid)

/-- Query GameSession by game_id (state.py line 34). -/
def findSession (db : DB) (gid : Nat) : Option SessionRec :=
  db.sessions.find? (fun s => s.game_id == gid)

/-- Pending actions of a game ordered by timestamp ascending (state.py
lines 50-53). -/
def pendingFor (db : DB) (gid : Nat) : List ActionRec :=
  List.insertionSort (fun a b => a.timestamp ≤ b.timestamp)
    (db.actions.filter (fun a => a.game_id == gid && !a.processed))

/-- Roster of a game: players whose id appears in game_players for the
game (state.py lines 41-43). -/
def rosterFor (db : DB) (gid : Nat) : List PlayerRec :=
  db.players.filter (fun p => db.game_players.any (fun gp => gp.1 == gid && gp.2 == p.id))

/-- Lazy session creation inside get_game_state (state.py lines 34-38):
returns the existing session, or inserts one with round_number 1 and
commits; a failing commit leaves the DB unchanged. -/
def getOrCreateSession (db : DB) (gid : Nat) (fail : Bool) :
    Except DB (DB × SessionRec) :=
  match findSession db gid with
  | some s => Except.ok (db, s)
  | none =>
    if fail then Except.error db
    else
      let s : SessionRec := ⟨gid, 1, none⟩
      Except.ok ({ db with sessions := db.sessions ++ [s] }, s)

/-- GameStateManager.mark_actions_processed (state.py lines 163-169):
set processed on every action of the game whose id is listed, then
commit. -/
def mark_actions_processed (db : DB) (gid : Nat) (ids : List Nat) (fail : Bool) :
    Except DB DB :=
  if fail then Except.error db
  else
    Except.ok { db with
      actions := db.actions.map (fun a =>
        if a.game_id == gid && ids.contains a.id then { a with processed := true } else a) }

/-- Row-level effect of the session update of engine.py lines 126-131:
round_number + 1 and current_turn cleared on the session row of the
game (game_id is unique across session rows). -/
def advanceSessionRow (gid : Nat) (s : SessionRec) : SessionRec :=
  if s.game_id == gid then
    { s with round_number := s.round_number + 1, current_turn := none }
  else s

/-- The session update of engine.py lines 126-131, then commit. -/
def advanceSession (db : DB) (gid : Nat) (fail : Bool) : Except DB DB :=
  if fail then Except.error db
  else Except.ok { db with sessions := db.sessions.map (advanceSessionRow gid) }

/-- GameStateManager.log_game_event (state.py lines 121-129): append a
log row, then commit. -/
def log_game_event (db : DB) (gid : Nat) (msg : String) (t : LogType) (fail : Bool) :
    Except DB DB :=
  if fail then Except.error db
  else Except.ok { db with logs := db.logs ++ [⟨gid, msg, t⟩] }

/-- The pair-building loop of engine.py lines 80-102: for each pending
action, the participant is looked up in the cached roster, then directly
in the players table; an action with an unknown player is dropped. -/
def buildPlayerActions (db : DB) (roster : List PlayerRec) :
    List ActionRec → List PlayerAction × List Nat
  | [] => ([], [])
  | a :: rest =>
    let tail := buildPlayerActions db roster rest
    match roster.find? (fun p => p.id == a.player_id) with
    | some p => (⟨p.name, a.action_text⟩ :: tail.1, a.id :: tail.2)
    | none =>
      match db.players.find? (fun p => p.id == a.player_id) with
      | some p => (⟨p.name, a.action_text⟩ :: tail.1, a.id :: tail.2)
      | none => tail

/-- Python truthiness of the narrative variable: None and the empty
string are falsy. -/
def truthy : Option String → Bool
  | none => false
  | some s => !s.isEmpty

/-- The three separate commits at the end of a processed round
(engine.py lines 121-139): mark the listed actions processed, advance
the session, append the narrative log entry (only when the narrative is
truthy).  The snapRound argument is the round number of the snapshot
session, used in the log message.  An error value is the DB as durably
committed when a persistence failure interrupted the sequence. -/
def commitPhase (db1 : DB) (gid : Nat) (fs : FailSpec) (aids : List Nat)
    (narrative : Option String) (snapRound : Nat) :
    Except DB (Option String × DB) :=
  match (if !aids.isEmpty then mark_actions_processed db1 gid aids fs.failMark
         else Except.ok db1) with
  | Except.error d => Except.error d
  | Except.ok db2 =>
    match (match findSession db2 gid with
           | some _ => advanceSession db2 gid fs.failSession
           | none => Except.ok db2) with
    | Except.error d => Except.error d
    | Except.ok db3 =>
      match (if truthy narrative then
               log_game_event db3 gid
                 ("**Round " ++ toString snapRound ++ "**\n" ++
                   narrative.getD "") LogType.narrative fs.failLog
             else Except.ok db3) with
      | Except.error d => Except.error d
      | Except.ok db4 => Except.ok (narrative, db4)

/-- The gates of the active path before the commits: pending gate,
scheduler gate, pair building and narration. -/
def process_round_core (db1 : DB) (gid : Nat) (force : Bool)
    (ai : Option AIResult) (now : Int) (fs : FailSpec) (snapRound : Nat) :
    Except DB (Option String × DB) :=
  let pending := pendingFor db1 gid
  if pending.isEmpty && !force then Except.ok (none, db1)
  else
    let roster := rosterFor db1 gid
    if should_process_round roster.length pending force now then
      let pas := (buildPlayerActions db1 roster pending).1
      let aids := (buildPlayerActions db1 roster pending).2
      let narrative : Option String :=
        if !pas.isEmpty then
          match ai with
          | some AIResult.raises => some (engineFallbackNarrative pas)
          | some (AIResult.giving r) => r
          | none => some (engineFallbackNarrative pas)
        else none
      commitPhase db1 gid fs aids narrative snapRound
    else Except.ok (none, db1)

/-- The try block of GameEngine.process_round (engine.py lines 51-141),
after the exclusion check: snapshot with lazy session creation, status
gate, then the core sequence above. -/
def process_round_body (db0 : DB) (gid : Nat) (force : Bool)
    (ai : Option AIResult) (now : Int) (fs : FailSpec) :
    Except DB (Option String × DB) :=
  match findGame db0 gid with
  | none => Except.ok (none, db0)
  | some game =>
    match getOrCreateSession db0 gid fs.failCreate with
    | Except.error d => Except.error d
    | Except.ok (db1, sess) =>
      if game.status = GameStatus.active then
        process_round_core db1 gid force ai now fs sess.round_number
      else Except.ok (none, db1)

/-- Result of one process_round call: the returned value, the durable
DB afterwards, and whether the try block raised (in which case the
except handler at engine.py lines 143-145 swallowed the exception and
returned None). -/
structure RoundOutcome where
  ret : Option String
  db : DB
  raised : Bool
deriving DecidableEq

/-- GameEngine.process_round for a caller that holds the per-game
exclusion token (the token handling itself, engine.py lines 44-49 and
146-147, is modelled by the interleaving system further below). -/
def process_round (db : DB) (gid : Nat) (force : Bool) (ai : Option AIResult)
    (now : Int) (fs : FailSpec) : RoundOutcome :=
  match process_round_body db gid force ai now fs with
  | Except.ok (r, db2) => ⟨r, db2, false⟩
  | Except.error db2 => ⟨none, db2, true⟩

/-- GameEngine.queue_action (engine.py lines 191-211): insert a new
pending action row.  The autoincremented id and the creation timestamp
are passed explicitly. -/
def queue_action (db : DB) (gid pid : Nat) (txt : String) (aid : Nat) (t : Int) : DB :=
  { db with actions := db.actions ++ [⟨aid, gid, pid, txt, t, false⟩] }

/-- The round number a reader observes for a game: the round_number of
its session row, or the schema default 1 when no session row exists
yet. -/
def roundOf (db : DB) (gid : Nat) : Nat :=
  match findSession db gid with
  | some s => s.round_number
  | none => 1

/-- The current_turn a reader observes for a game. -/
def currentTurnOf (db : DB) (gid : Nat) : Option Nat :=
  match findSession db gid with
  | some s => s.current_turn
  | none => none

/-- The operations of GameEngine that touch the database: a
process_round call (with its environment: force flag, AI outcome, clock
and persistence-failure injection) or a queue_action call. -/
inductive EngineOp
  | resolve (gid : Nat) (force : Bool) (ai : Option AIResult) (now : Int) (fs : FailSpec)
  | enqueue (gid pid : Nat) (txt : String) (aid : Nat) (t : Int)

/-- Durable effect of one engine operation. -/
def applyOp (db : DB) : EngineOp → DB
  | EngineOp.resolve gid force ai now fs => (process_round db gid force ai now fs).db
  | EngineOp.enqueue gid pid txt aid t => queue_action db gid pid txt aid t

/-- Durable effect of a sequence of engine operations. -/
def applyOps (db : DB) : List EngineOp → DB
  | [] => db
  | op :: rest => applyOps (applyOp db op) rest

/-! Exclusion-token interleaving model (engine.py lines 44-49, 146-147).
The engine runs on a single asyncio event loop; the membership test on
self.active_rounds and the insertion (lines 45-49) contain no await, so
they execute as one indivisible step of the loop.  The only suspension
points inside the try block are the awaited narrator call and nothing
else, so a concurrent call for the same game id can only observe the
token either before the check-and-set or after the finally-pop.  The
system below has two tasks calling process_round for one game id; a
start step is the atomic check-and-set, a finish step is the rest of the
call (narration, commits and the finally-pop at line 147), during which
the other task may freely take its own steps. -/

/-- Position of one task in its process_round call. -/
inductive TaskPhase
  | idle
  | running
  | doneBusy
  | doneFinished
deriving DecidableEq

/-- The two racing callers. -/
inductive TaskId
  | A
  | B
deriving DecidableEq

/-- Shared state: whether the game id is in self.active_rounds, the
phase of each task, and how many round resolutions have committed. -/
structure ConcState where
  held : Bool
  phaseA : TaskPhase
  phaseB : TaskPhase
  commits : Nat
deriving DecidableEq

/-- Phase of a given task. -/
def phase (s : ConcState) : TaskId → TaskPhase
  | TaskId.A => s.phaseA
  | TaskId.B => s.phaseB

/-- Replace the phase of one task. -/
def setPhase (s : ConcState) : TaskId → TaskPhase → ConcState
  | TaskId.A, p => { s with phaseA := p }
  | TaskId.B, p => { s with phaseB := p }

/-- One atomic step of the event loop, taken by the named task:
either the check-and-set of engine.py lines 45-49 (finding the token
held and returning None, or acquiring it), or completing the held call
(committing one resolution and popping the token in the finally). -/
inductive ConcStep : TaskId → ConcState → ConcState → Prop
  | startBusy (s : ConcState) (i : TaskId) :
      phase s i = TaskPhase.idle → s.held = true →
      ConcStep i s (setPhase s i TaskPhase.doneBusy)
  | startAcquire (s : ConcState) (i : TaskId) :
      phase s i = TaskPhase.idle → s.held = false →
      ConcStep i s { setPhase s i TaskPhase.running with held := true }
  | finish (s : ConcState) (i : TaskId) :
      phase s i = TaskPhase.running →
      ConcStep i s { setPhase s i TaskPhase.doneFinished with
                       held := false, commits := s.commits + 1 }

/-- Both tasks about to call process_round, token free. -/
def initConc : ConcState := ⟨false, TaskPhase.idle, TaskPhase.idle, 0⟩

/-- States reachable from initConc by steps of either task. -/
inductive ConcReachable : ConcState → Prop
  | init : ConcReachable initConc
  | step {s t : ConcState} {i : TaskId} :
      ConcReachable s → ConcStep i s t → ConcReachable t

/-! Concrete states used by the concrete theorems below. -/

/-- The stat allocation the spec presents as accepted. -/
def statsA : List (String × Int) :=
  [("STR", 15), ("DEX", 12), ("CON", 14), ("INT", 10), ("WIS", 13), ("CHA", 13)]

/-- The stat allocation the spec presents as rejected. -/
def statsB : List (String × Int) :=
  [("STR", 18), ("DEX", 18), ("CON", 18), ("INT", 18), ("WIS", 18), ("CHA", 18)]

/-- The standard point-buy array, whose cost is exactly the budget. -/
def statsStandard : List (String × Int) :=
  [("STR", 15), ("DEX", 14), ("CON", 13), ("INT", 12), ("WIS", 10), ("CHA", 8)]

/-- An active game with one roster member and one pending action. -/
def exampleDb : DB :=
  { games := [⟨1, GameStatus.active⟩]
    sessions := [⟨1, 1, some 10⟩]
    players := [⟨10, "Thorne"⟩]
    game_players := [(1, 10)]
    actions := [⟨100, 1, 10, "attacks", 0, false⟩]
    logs := [] }

/-- A second active game, used independently of exampleDb. -/
def exampleDb2 : DB :=
  { games := [⟨2, GameStatus.active⟩]
    sessions := [⟨2, 4, none⟩]
    players := [⟨20, "Mira"⟩]
    game_players := [(2, 20)]
    actions := [⟨200, 2, 20, "casts a spell", 50, false⟩]
    logs := [] }

/-- exampleDb with the single roster member given an arbitrary name. -/
def dbNamed (nm : String) : DB :=
  { games := [⟨1, GameStatus.active⟩]
    sessions := [⟨1, 1, some 10⟩]
    players := [⟨10, nm⟩]
    game_players := [(1, 10)]
    actions := [⟨100, 1, 10, "attacks", 0, false⟩]
    logs := [] }

/-- exampleDb with arbitrary action text and timestamp on the single
pending action. -/
def dbOneAction (txt : String) (t : Int) : DB :=
  { games := [⟨1, GameStatus.active⟩]
    sessions := [⟨1, 1, some 10⟩]
    players := [⟨10, "Thorne"⟩]
    game_players := [(1, 10)]
    actions := [⟨100, 1, 10, txt, t, false⟩]
    logs := [] }

/-- A paused game with a session and a long-pending action. -/
def dbPaused : DB :=
  { games := [⟨3, GameStatus.paused⟩]
    sessions := [⟨3, 7, some 30⟩]
    players := [⟨30, "Kael"⟩]
    game_players := [(3, 30)]
    actions := [⟨300, 3, 30, "waits", 0, false⟩]
    logs := [] }

/-- An active game with no pending actions at all. -/
def dbIdle : DB :=
  { games := [⟨4, GameStatus.active⟩]
    sessions := [⟨4, 5, some 40⟩]
    players := [⟨40, "Sera"⟩]
    game_players := [(4, 40)]
    actions := []
    logs := [] }

/-- An active game with a full quorum: its one roster member has one
pending action, so the scheduler resolves without force. -/
def dbQuorum : DB :=
  { games := [⟨5, GameStatus.active⟩]
    sessions := [⟨5, 9, some 50⟩]
    players := [⟨50, "Nyx"⟩]
    game_players := [(5, 50)]
    actions := [⟨500, 5, 50, "strikes", 0, false⟩]
    logs := [] }

/-- A pending action by player 1 at time 0 (scheduler scenarios). -/
def schedAct1 : ActionRec := ⟨101, 1, 1, "advances", 0, false⟩

/-- A pending action by player 3 at time 0: a player outside the
two-member roster (scheduler scenarios). -/
def schedAct3 : ActionRec := ⟨103, 1, 3, "lurks", 0, false⟩

/-! Helper lemmas shared by the claim theorems. -/

theorem advanceSessionRow_game_id (gid : Nat) (s : SessionRec) :
    (advanceSessionRow gid s).game_id = s.game_id := by
  unfold advanceSessionRow; split <;> rfl

theorem find?_map_advanceRow (gid gid' : Nat) :
    ∀ ss : List SessionRec,
      (ss.map (advanceSessionRow gid)).find? (fun s => s.game_id == gid') =
        (ss.find? (fun s => s.game_id == gid')).map (advanceSessionRow gid)
  | [] => rfl
  | a :: tl => by
    simp only [List.map_cons, List.find?, advanceSessionRow_game_id]
    cases hb : (a.game_id == gid') with
    | true => rfl
    | false => exact find?_map_advanceRow gid gid' tl

theorem findSession_mapAdvance (db : DB) (gid gid' : Nat) :
    findSession { db with sessions := db.sessions.map (advanceSessionRow gid) } gid' =
      (findSession db gid').map (advanceSessionRow gid) :=
  find?_map_advanceRow gid gid' db.sessions

theorem roundOf_mapAdvance (db : DB) (gid gid' : Nat) :
    roundOf { db with sessions := db.sessions.map (advanceSessionRow gid) } gid' = roundOf db gid' ∨
    roundOf { db with sessions := db.sessions.map (advanceSessionRow gid) } gid' = roundOf db gid' + 1 := by
  unfold roundOf
  rw [findSession_mapAdvance]
  cases h : findSession db gid' with
  | none => exact Or.inl rfl
  | some s =>
    simp only [Option.map_some']
    unfold advanceSessionRow
    split
    · exact Or.inr rfl
    · exact Or.inl rfl

theorem roundOf_mapAdvance_self (db : DB) (gid : Nat) (s : SessionRec)
    (h : findSession db gid = some s) :
    roundOf { db with sessions := db.sessions.map (advanceSessionRow gid) } gid =
      s.round_number + 1 := by
  have h' : db.sessions.find? (fun x => x.game_id == gid) = some s := h
  have hp : (s.game_id == gid) = true := by simpa using List.find?_some h'
  unfold roundOf
  rw [findSession_mapAdvance, h]
  simp [advanceSessionRow, hp]

theorem currentTurn_mapAdvance_self (db : DB) (gid : Nat) (s : SessionRec)
    (h : findSession db gid = some s) :
    currentTurnOf { db with sessions := db.sessions.map (advanceSessionRow gid) } gid = none := by
  have h' : db.sessions.find? (fun x => x.game_id == gid) = some s := h
  have hp : (s.game_id == gid) = true := by simpa using List.find?_some h'
  unfold currentTurnOf
  rw [findSession_mapAdvance, h]
  simp [advanceSessionRow, hp]

theorem roundOf_appendSession (db : DB) (gid gid' : Nat) :
    roundOf { db with sessions := db.sessions ++ [(⟨gid, 1, none⟩ : SessionRec)] } gid' =
      roundOf db gid' := by
  unfold roundOf findSession
  rw [List.find?_append]
  cases h : db.sessions.find? (fun s => s.game_id == gid') with
  | some s => simp [Option.or]
  | none =>
    cases hb : (gid == gid') <;> simp [List.find?, hb, Option.or]

theorem getOrCreate_found (db : DB) (gid : Nat) (fail : Bool) (s : SessionRec)
    (h : findSession db gid = some s) :
    getOrCreateSession db gid fail = Except.ok (db, s) := by
  unfold getOrCreateSession; rw [h]

theorem getOrCreate_missing (db : DB) (gid : Nat) (h : findSession db gid = none) :
    getOrCreateSession db gid false =
      Except.ok ({ db with sessions := db.sessions ++ [(⟨gid, 1, none⟩ : SessionRec)] },
        (⟨gid, 1, none⟩ : SessionRec)) := by
  unfold getOrCreateSession
  rw [h]
  rfl

theorem getOrCreate_failing (db : DB) (gid : Nat) (h : findSession db gid = none) :
    getOrCreateSession db gid true = Except.error db := by
  unfold getOrCreateSession
  rw [h]
  rfl

theorem markish_ok (db1 : DB) (gid : Nat) (aids : List Nat) (fail : Bool) (b : Bool)
    (db2 : DB)
    (h : (if b then mark_actions_processed db1 gid aids fail else Except.ok db1) =
      Except.ok db2) :
    db2.sessions = db1.sessions ∧ db2.logs = db1.logs := by
  cases b with
  | false => simp at h; rw [← h]; exact ⟨rfl, rfl⟩
  | true =>
    unfold mark_actions_processed at h
    cases fail with
    | true => simp at h
    | false => simp at h; rw [← h]; exact ⟨rfl, rfl⟩

theorem markish_error (db1 : DB) (gid : Nat) (aids : List Nat) (fail : Bool) (b : Bool)
    (d : DB)
    (h : (if b then mark_actions_processed db1 gid aids fail else Except.ok db1) =
      Except.error d) :
    d = db1 := by
  cases b with
  | false => simp at h
  | true =>
    unfold mark_actions_processed at h
    cases fail with
    | true => simp at h; exact h.symm
    | false => simp at h

theorem logish_ok (db3 : DB) (gid : Nat) (msg : String) (t : LogType) (fail : Bool)
    (b : Bool) (db4 : DB)
    (h : (if b then log_game_event db3 gid msg t fail else Except.ok db3) =
      Except.ok db4) :
    db4.sessions = db3.sessions := by
  cases b with
  | false => simp at h; rw [← h]
  | true =>
    unfold log_game_event at h
    cases fail with
    | true => simp at h
    | false => simp at h; rw [← h]

theorem logish_error (db3 : DB) (gid : Nat) (msg : String) (t : LogType) (fail : Bool)
    (b : Bool) (d : DB)
    (h : (if b then log_game_event db3 gid msg t fail else Except.ok db3) =
      Except.error d) :
    d = db3 := by
  cases b with
  | false => simp at h
  | true =>
    unfold log_game_event at h
    cases fail with
    | true => simp at h; exact h.symm
    | false => simp at h

theorem advish_ok (db2 : DB) (g : Nat) (fail : Bool) (db3 : DB)
    (h : (match findSession db2 g with
          | some _ => advanceSession db2 g fail
          | none => Except.ok db2) = Except.ok db3) :
    ∀ gid, roundOf db3 gid = roundOf db2 gid ∨ roundOf db3 gid = roundOf db2 gid + 1 := by
  intro gid
  cases hfs : findSession db2 g with
  | none => rw [hfs] at h; simp at h; rw [← h]; exact Or.inl rfl
  | some s =>
    rw [hfs] at h
    unfold advanceSession at h
    cases fail with
    | true => simp at h
    | false => simp at h; rw [← h]; exact roundOf_mapAdvance db2 g gid

theorem advish_error (db2 : DB) (g : Nat) (fail : Bool) (d : DB)
    (h : (match findSession db2 g with
          | some _ => advanceSession db2 g fail
          | none => Except.ok db2) = Except.error d) :
    d = db2 := by
  cases hfs : findSession db2 g with
  | none => rw [hfs] at h; simp at h
  | some s =>
    rw [hfs] at h
    unfold advanceSession at h
    cases fail with
    | true => simp at h; exact h.symm
    | false => simp at h

theorem roundOf_sessions_eq (dbx dby : DB) (h : dbx.sessions = dby.sessions) (gid : Nat) :
    roundOf dbx gid = roundOf dby gid := by
  unfold roundOf findSession
  rw [h]

/-- Shared shape of the round-number obligations: the durably committed
DB of an outcome has the same round number as the base DB, or exactly
one more. -/
def RoundPred (dbBase : DB) (gid : Nat) : Except DB (Option String × DB) → Prop
  | Except.ok (_, d) =>
      roundOf d gid = roundOf dbBase gid ∨ roundOf d gid = roundOf dbBase gid + 1
  | Except.error d =>
      roundOf d gid = roundOf dbBase gid ∨ roundOf d gid = roundOf dbBase gid + 1

theorem RoundPred_congr_base (dbx dby : DB) (gid : Nat)
    (e : Except DB (Option String × DB))
    (h : roundOf dbx gid = roundOf dby gid) (hp : RoundPred dbx gid e) :
    RoundPred dby gid e := by
  cases e with
  | ok p =>
    obtain ⟨r, d⟩ := p
    unfold RoundPred at hp ⊢
    rw [← h]
    exact hp
  | error d =>
    unfold RoundPred at hp ⊢
    rw [← h]
    exact hp

theorem commit_roundOf (db1 : DB) (g : Nat) (fs : FailSpec) (aids : List Nat)
    (narrative : Option String) (r gid : Nat) :
    RoundPred db1 gid (commitPhase db1 g fs aids narrative r) := by
  unfold commitPhase
  cases hmark : (if !aids.isEmpty then mark_actions_processed db1 g aids fs.failMark
                 else Except.ok db1) with
  | error d =>
    have hd := markish_error _ _ _ _ _ _ hmark
    dsimp only
    rw [hd]
    exact Or.inl rfl
  | ok db2 =>
    have e21 : roundOf db2 gid = roundOf db1 gid :=
      roundOf_sessions_eq db2 db1 (markish_ok _ _ _ _ _ _ hmark).1 gid
    dsimp only
    cases hadv : (match findSession db2 g with
                  | some _ => advanceSession db2 g fs.failSession
                  | none => Except.ok db2) with
    | error d =>
      have hd := advish_error _ _ _ _ hadv
      dsimp only
      rw [hd]
      exact Or.inl e21
    | ok db3 =>
      have h32 := advish_ok _ _ _ _ hadv gid
      dsimp only
      cases hlog : (if truthy narrative then
                      log_game_event db3 g
                        ("**Round " ++ toString r ++ "**\n" ++ narrative.getD "")
                        LogType.narrative fs.failLog
                    else Except.ok db3) with
      | error d =>
        have hd := logish_error _ _ _ _ _ _ _ hlog
        dsimp only
        rw [hd]
        rcases h32 with h | h
        · exact Or.inl (h.trans e21)
        · exact Or.inr (by rw [h, e21])
      | ok db4 =>
        have e43 : roundOf db4 gid = roundOf db3 gid :=
          roundOf_sessions_eq db4 db3 (logish_ok _ _ _ _ _ _ _ hlog) gid
        dsimp only
        rcases h32 with h | h
        · exact Or.inl (e43.trans (h.trans e21))
        · exact Or.inr (by rw [e43, h, e21])

theorem core_roundOf (db1 : DB) (g : Nat) (force : Bool) (ai : Option AIResult)
    (now : Int) (fs : FailSpec) (r gid : Nat) :
    RoundPred db1 gid (process_round_core db1 g force ai now fs r) := by
  unfold process_round_core
  dsimp only
  split
  · exact Or.inl rfl
  · split
    · exact commit_roundOf db1 g fs _ _ r gid
    · exact Or.inl rfl

theorem body_roundOf (db : DB) (g : Nat) (force : Bool) (ai : Option AIResult)
    (now : Int) (fs : FailSpec) (gid : Nat) :
    RoundPred db gid (process_round_body db g force ai now fs) := by
  unfold process_round_body
  cases hfg : findGame db g with
  | none => exact Or.inl rfl
  | some game =>
    cases hfs : findSession db g with
    | some s =>
      rw [getOrCreate_found db g fs.failCreate s hfs]
      dsimp only
      split
      · exact core_roundOf db g force ai now fs s.round_number gid
      · exact Or.inl rfl
    | none =>
      cases hfc : fs.failCreate with
      | true =>
        rw [getOrCreate_failing db g hfs]
        exact Or.inl rfl
      | false =>
        rw [getOrCreate_missing db g hfs]
        dsimp only
        have ecr :
            roundOf { db with sessions := db.sessions ++ [(⟨g, 1, none⟩ : SessionRec)] } gid
              = roundOf db gid := roundOf_appendSession db g gid
        split
        · exact RoundPred_congr_base _ db gid _ ecr
            (core_roundOf { db with sessions := db.sessions ++ [(⟨g, 1, none⟩ : SessionRec)] }
              g force ai now fs 1 gid)
        · exact Or.inl ecr

theorem sched_eq_amended (np : Nat) (pending : List ActionRec) (force : Bool)
    (now : Int) :
    should_process_round np pending force now = shouldResolveAmended np pending force now := by
  unfold should_process_round shouldResolveAmended
  cases force with
  | true => simp
  | false =>
    simp only [Bool.false_or, if_false]
    by_cases he : pending.isEmpty
    · simp [he]
    · simp only [he, Bool.not_false, Bool.true_and, if_false]
      by_cases hm : pending.length ≥ MIN_PLAYERS_FOR_ROUND
      · simp only [hm, if_true, decide_eq_true_eq, decide_True, Bool.true_and]
        by_cases hq : (pending.map fun a => a.player_id).dedup.length ≥ np
        · simp [hq]
        · simp [hq]
      · simp [hm]

def concInv (s : ConcState) : Prop :=
  (s.phaseA = TaskPhase.running → s.held = true) ∧
  (s.phaseB = TaskPhase.running → s.held = true) ∧
  ¬(s.phaseA = TaskPhase.running ∧ s.phaseB = TaskPhase.running)

theorem conc_inv_of_reachable {s : ConcState} (h : ConcReachable s) : concInv s := by
  induction h with
  | init => exact ⟨by simp [initConc], by simp [initConc], by simp [initConc]⟩
  | step hr hstep ih =>
    rename_i s' t' i
    obtain ⟨h1, h2, h3⟩ := ih
    cases hstep with
    | startBusy _ _ hp hh =>
      cases i with
      | A =>
        exact ⟨by simp [setPhase], fun hb => h2 hb, by simp [setPhase]⟩
      | B =>
        exact ⟨fun ha => h1 ha, by simp [setPhase], by simp [setPhase]⟩
    | startAcquire _ _ hp hh =>
      cases i with
      | A =>
        refine ⟨fun _ => rfl, fun _ => rfl, ?_⟩
        intro hboth
        have hb : s'.phaseB = TaskPhase.running := hboth.2
        rw [h2 hb] at hh
        cases hh
      | B =>
        refine ⟨fun _ => rfl, fun _ => rfl, ?_⟩
        intro hboth
        have ha : s'.phaseA = TaskPhase.running := hboth.1
        rw [h1 ha] at hh
        cases hh
    | finish _ _ hp =>
      cases i with
      | A =>
        refine ⟨by simp [setPhase], ?_, by simp [setPhase]⟩
        intro hb
        exact absurd ⟨hp, hb⟩ h3
      | B =>
        refine ⟨?_, by simp [setPhase], by simp [setPhase]⟩
        intro ha
        exact absurd ⟨ha, hp⟩ h3

theorem commitPhase_nil_noFail (db : DB) (g : Nat) (s : SessionRec) (r : Nat)
    (h : findSession db g = some s) :
    commitPhase db g noFail [] none r =
      Except.ok (none, { db with sessions := db.sessions.map (advanceSessionRow g) }) := by
  unfold commitPhase
  simp only [List.isEmpty_nil, Bool.not_true, Bool.false_eq_true, if_false]
  rw [h]
  rfl

theorem core_nil_force_noFail (db : DB) (g : Nat) (ai : Option AIResult) (now : Int)
    (s : SessionRec) (r : Nat)
    (hp : pendingFor db g = []) (h : findSession db g = some s) :
    process_round_core db g true ai now noFail r =
      Except.ok (none, { db with sessions := db.sessions.map (advanceSessionRow g) }) := by
  unfold process_round_core
  dsimp only
  rw [hp]
  simp only [List.isEmpty_nil, Bool.not_true, Bool.and_false, Bool.false_eq_true, if_false,
    should_process_round, eq_self_iff_true, if_true, buildPlayerActions]
  exact commitPhase_nil_noFail db g s r h

theorem roundOf_process_round_step (db : DB) (g : Nat) (force : Bool)
    (ai : Option AIResult) (now : Int) (fs : FailSpec) (gid : Nat) :
    roundOf (process_round db g force ai now fs).db gid = roundOf db gid ∨
    roundOf (process_round db g force ai now fs).db gid = roundOf db gid + 1 := by
  have hb := body_roundOf db g force ai now fs gid
  unfold process_round
  revert hb
  cases process_round_body db g force ai now fs with
  | ok p =>
    obtain ⟨r, d⟩ := p
    intro hb
    exact hb
  | error d =>
    intro hb
    exact hb

theorem roundOf_queue (db : DB) (g p : Nat) (txt : String) (aid : Nat) (t : Int)
    (gid : Nat) :
    roundOf (queue_action db g p txt aid t) gid = roundOf db gid := rfl

theorem roundOf_applyOp_le (db : DB) (op : EngineOp) (gid : Nat) :
    roundOf db gid ≤ roundOf (applyOp db op) gid := by
  cases op with
  | resolve g force ai now fs =>
    show roundOf db gid ≤ roundOf (process_round db g force ai now fs).db gid
    rcases roundOf_process_round_step db g force ai now fs gid with h | h
    · exact le_of_eq h.symm
    · rw [h]; exact Nat.le_succ _
  | enqueue g p txt aid t => exact le_of_eq (roundOf_queue db g p txt aid t gid).symm

theorem roundOf_applyOps_mono (ops : List EngineOp) : ∀ (db : DB) (gid : Nat),
    roundOf db gid ≤ roundOf (applyOps db ops) gid := by
  induction ops with
  | nil => intro db gid; exact Nat.le_refl _
  | cons op rest ih =>
    intro db gid
    exact Nat.le_trans (roundOf_applyOp_le db op gid) (ih (applyOp db op) gid)

theorem getOrCreate_roundOf_cases (db : DB) (gid : Nat) (fail : Bool) :
    match getOrCreateSession db gid fail with
    | Except.ok (db1, s) =>
        roundOf db1 gid = roundOf db gid ∧ s.round_number = roundOf db gid
    | Except.error d => d = db := by
  cases hfs : findSession db gid with
  | some s =>
    rw [getOrCreate_found db gid fail s hfs]
    refine ⟨rfl, ?_⟩
    unfold roundOf
    rw [hfs]
  | none =>
    cases fail with
    | true =>
      rw [getOrCreate_failing db gid hfs]
    | false =>
      rw [getOrCreate_missing db gid hfs]
      refine ⟨roundOf_appendSession db gid gid, ?_⟩
      unfold roundOf
      rw [hfs]

theorem markish_noFail (db : DB) (g : Nat) (aids : List Nat) (b : Bool) :
    ∃ db2, (if b then mark_actions_processed db g aids false else Except.ok db) =
        Except.ok db2 ∧ db2.sessions = db.sessions := by
  cases b with
  | false => exact ⟨db, rfl, rfl⟩
  | true =>
    exact ⟨{ db with actions := db.actions.map (fun a =>
      if a.game_id == g && aids.contains a.id then { a with processed := true } else a) },
      rfl, rfl⟩

theorem logish_noFail (db3 : DB) (g : Nat) (msg : String) (b : Bool) :
    ∃ db4, (if b then log_game_event db3 g msg LogType.narrative false else Except.ok db3) =
        Except.ok db4 ∧ db4.sessions = db3.sessions := by
  cases b with
  | false => exact ⟨db3, rfl, rfl⟩
  | true => exact ⟨{ db3 with logs := db3.logs ++ [⟨g, msg, LogType.narrative⟩] }, rfl, rfl⟩

theorem commit_outcome_noFail (db : DB) (g : Nat) (aids : List Nat)
    (narrative : Option String) (r : Nat) (s : SessionRec)
    (h : findSession db g = some s) :
    ∃ db4, commitPhase db g noFail aids narrative r = Except.ok (narrative, db4) ∧
      roundOf db4 g = s.round_number + 1 := by
  obtain ⟨db2, hm, hs2⟩ := markish_noFail db g aids (!aids.isEmpty)
  have h2 : findSession db2 g = some s := by
    unfold findSession at h ⊢
    rw [hs2]
    exact h
  obtain ⟨db4, hl, hs4⟩ :=
    logish_noFail { db2 with sessions := db2.sessions.map (advanceSessionRow g) } g
      ("**Round " ++ toString r ++ "**\n" ++ narrative.getD "") (truthy narrative)
  refine ⟨db4, ?_, ?_⟩
  · unfold commitPhase
    dsimp only [noFail]
    rw [hm]
    dsimp only
    rw [h2]
    dsimp only
    unfold advanceSession
    simp only [Bool.false_eq_true, if_false]
    rw [hl]
  · rw [roundOf_sessions_eq db4 _ hs4 g]
    exact roundOf_mapAdvance_self db2 g s h2

theorem body_commits (db : DB) (g : Nat) (force : Bool) (ai : Option AIResult)
    (now : Int) (game : GameRec) (s : SessionRec)
    (h1 : findGame db g = some game) (h2 : game.status = GameStatus.active)
    (h3 : findSession db g = some s)
    (hs : should_process_round (rosterFor db g).length (pendingFor db g) force now = true) :
    ∃ nar db4, process_round_body db g force ai now noFail = Except.ok (nar, db4) ∧
      roundOf db4 g = s.round_number + 1 := by
  have hgate : ((pendingFor db g).isEmpty && !force) = false := by
    cases force with
    | true => simp
    | false =>
      cases hpl : pendingFor db g with
      | cons a tl => simp [hpl]
      | nil =>
        exfalso
        rw [hpl] at hs
        have hz : should_process_round (rosterFor db g).length [] false now = false := rfl
        rw [hz] at hs
        cases hs
  unfold process_round_body
  rw [h1]
  dsimp only
  rw [getOrCreate_found db g noFail.failCreate s h3]
  dsimp only
  rw [if_pos h2]
  unfold process_round_core
  dsimp only
  rw [hgate]
  simp only [Bool.false_eq_true, if_false]
  rw [hs]
  simp only [eq_self_iff_true, if_true]
  refine (commit_outcome_noFail db g _ _ s.round_number s h3).elim
    (fun db4 hh => ⟨_, db4, hh.1, hh.2⟩)

theorem process_round_eq_of_body {db : DB} {g : Nat} {force : Bool}
    {ai : Option AIResult} {now : Int} {fs : FailSpec} {nar : Option String} {d : DB}
    (h : process_round_body db g force ai now fs = Except.ok (nar, d)) :
    process_round db g force ai now fs = ⟨nar, d, false⟩ := by
  unfold process_round
  rw [h]

theorem committed_increments : ∀ (db : DB) (g : Nat) (force : Bool)
    (ai : Option AIResult) (now : Int) (game : GameRec) (s : SessionRec),
    findGame db g = some game → game.status = GameStatus.active →
    findSession db g = some s →
    should_process_round (rosterFor db g).length (pendingFor db g) force now = true →
    (process_round db g force ai now noFail).raised = false ∧
    roundOf (process_round db g force ai now noFail).db g = roundOf db g + 1 := by
  intro db g force ai now game s h1 h2 h3 hs
  have hr : roundOf db g = s.round_number := by
    unfold roundOf
    rw [h3]
  obtain ⟨nar, db4, hbody, hrnd⟩ := body_commits db g force ai now game s h1 h2 h3 hs
  rw [process_round_eq_of_body hbody]
  refine ⟨rfl, ?_⟩
  show roundOf db4 g = roundOf db g + 1
  rw [hrnd, hr]

/-! Claim theorems. -/

/-- C1 counterexample: the commit of process_round is not atomic.  With
a persistence failure injected at the round-number update (the second
commit, engine.py line 131), the action is left durably marked processed
by the first commit (state.py line 169) while round_number stays 1: part
of the commit failed yet another part is durably applied. -/
theorem c1_counterexample :
    process_round exampleDb 1 false none 0 ⟨false, false, true, false⟩ =
      ⟨none, { exampleDb with actions := [⟨100, 1, 10, "attacks", 0, true⟩] }, true⟩ ∧
    roundOf { exampleDb with actions := [⟨100, 1, 10, "attacks", 0, true⟩] } 1 = 1 ∧
    roundOf exampleDb 1 = 1 := by decide

/-- C1 (amended): the round-resolution commit is three separate durable
writes, not one atomic transition.  For every action text and timestamp,
when the session-update commit fails after mark_actions_processed
committed, the action stays durably marked processed while the round
number does not advance, and the call returns none through the broad
except handler; when instead the first commit (mark) fails, nothing at
all is durably applied. -/
theorem c1_theorem : ∀ (txt : String) (t now : Int),
    process_round (dbOneAction txt t) 1 false none now ⟨false, false, true, false⟩ =
      ⟨none, { dbOneAction txt t with actions := [⟨100, 1, 10, txt, t, true⟩] }, true⟩ ∧
    process_round (dbOneAction txt t) 1 false none now ⟨false, true, false, false⟩ =
      ⟨none, dbOneAction txt t, true⟩ ∧
    roundOf { dbOneAction txt t with actions := [⟨100, 1, 10, txt, t, true⟩] } 1 =
      roundOf (dbOneAction txt t) 1 :=
  fun _ _ _ => ⟨rfl, rfl, rfl⟩

/-- C2 counterexample: the allocation the claim says is accepted
(STR 15, DEX 12, CON 14, INT 10, WIS 13, CHA 13) is in fact rejected
with the exact budget message: its point-cost sum is 9+4+7+2+5+5 = 32,
above the 27-point budget. -/
theorem c2_counterexample :
    (validate_stat_allocation statsA).1 = false ∧
    validate_stat_allocation statsA =
      (false, some "Total points exceeded: 32/27. Please redistribute your stat points.") := by
  exact ⟨by decide, by decide⟩

/-- C2 (amended): validate_stat_allocation rejects the first allocation
with the exact total-points message, because its per-value costs under
the STAT_POINT_COSTS table are 9, 4, 7, 2, 5, 5 and their sum 32
exceeds the budget STAT_POINT_BUY_MAX = 27; it rejects the all-18
allocation (each value above STAT_MAX, caught at the per-stat limit
check before the cost table is consulted); and it accepts the standard
point-buy array, whose cost is exactly the budget of 27. -/
theorem c2_theorem :
    validate_stat_allocation statsA =
      (false, some "Total points exceeded: 32/27. Please redistribute your stat points.") ∧
    sumStatCosts statsA 0 = Except.ok 32 ∧
    STAT_POINT_COSTS 15 = some 9 ∧ STAT_POINT_COSTS 12 = some 4 ∧
    STAT_POINT_COSTS 14 = some 7 ∧ STAT_POINT_COSTS 10 = some 2 ∧
    STAT_POINT_COSTS 13 = some 5 ∧ STAT_POINT_BUY_MAX = 27 ∧
    validate_stat_allocation statsB =
      (false, some "STR exceeds maximum: 18 (max: 15)") ∧
    validate_stat_allocation statsStandard = (true, none) ∧
    sumStatCosts statsStandard 0 = Except.ok 27 :=
  ⟨by decide, rfl, rfl, rfl, rfl, rfl, rfl, rfl, by decide, by decide, rfl⟩

/-- C3 counterexample: with the pending pair list [(Thorne, attacks)]
and a raising AI callback, the fallback narrative produced by
process_round is the fixed template around the action texts only; the
participant name Thorne does not appear anywhere in it, although the
claim asserts the name of every pair appears. -/
theorem c3_counterexample :
    (process_round exampleDb 1 false (some AIResult.raises) 0 noFail).ret =
      some "*The actions unfold: attacks*" ∧
    ¬ ("Thorne".toList <:+: "*The actions unfold: attacks*".toList) := by
  exact ⟨by decide, by decide⟩

/-- C3 (amended): when the AI callback raises, the fallback narrative
produced by process_round joins only the action texts with commas inside
the template, independent of the participant name; the pair-rendering
template with participant names is produced by the separate
OllamaClient fallback, not by process_round. -/
theorem c3_theorem :
    (∀ nm : String,
      (process_round (dbNamed nm) 1 false (some AIResult.raises) 0 noFail).ret =
        some "*The actions unfold: attacks*") ∧
    fallback_narrative [⟨"Thorne", "attacks"⟩] =
      "*The party acts: Thorne attacks. The world responds...*" :=
  ⟨fun _ => rfl, by decide⟩

/-- C4 counterexample: when the AI callback returns None, process_round
runs no fallback: the round still commits (the action is marked
processed and round_number advances to 2) yet the call completes with no
narrative at all and appends no log entry. -/
theorem c4_counterexample :
    process_round exampleDb 1 false (some (AIResult.giving none)) 0 noFail =
      ⟨none,
        { exampleDb with
            actions := [⟨100, 1, 10, "attacks", 0, true⟩],
            sessions := [⟨1, 2, none⟩] },
        false⟩ := by decide

/-- C4 (amended): the deterministic fallback runs only when the AI
callback raises or none is configured; when the callback returns an
empty string the round completes committed with that empty narrative and
no log entry, and when it returns None the round completes committed
with no narrative (see the counterexample).  Resolution never aborts in
any of these cases. -/
theorem c4_theorem :
    process_round exampleDb 1 false (some (AIResult.giving (some ""))) 0 noFail =
      ⟨some "",
        { exampleDb with
            actions := [⟨100, 1, 10, "attacks", 0, true⟩],
            sessions := [⟨1, 2, none⟩] },
        false⟩ ∧
    (process_round exampleDb 1 false (some AIResult.raises) 0 noFail).ret =
      some "*The actions unfold: attacks*" ∧
    (process_round exampleDb 1 false none 0 noFail).ret =
      some "*The actions unfold: attacks*" := by decide

/-- C5: the observed round number of any game never decreases across any
sequence of engine operations, a single process_round leaves it equal or
exactly one higher, queue_action never changes it, a session produced by
lazy creation carries round number 1 (equal to the default an absent
session reads as), and every successful process_round that commits (the
game is found ACTIVE with its session, the scheduler resolves, and no
persistence failure is injected) increments the round number by exactly
1 without raising. -/
theorem c5_theorem :
    (∀ (db : DB) (g : Nat) (force : Bool) (ai : Option AIResult) (now : Int)
        (fs : FailSpec) (gid : Nat),
      roundOf (process_round db g force ai now fs).db gid = roundOf db gid ∨
      roundOf (process_round db g force ai now fs).db gid = roundOf db gid + 1) ∧
    (∀ (db : DB) (g p : Nat) (txt : String) (aid : Nat) (t : Int) (gid : Nat),
      roundOf (queue_action db g p txt aid t) gid = roundOf db gid) ∧
    (∀ (ops : List EngineOp) (db : DB) (gid : Nat),
      roundOf db gid ≤ roundOf (applyOps db ops) gid) ∧
    (∀ (db : DB) (gid : Nat) (fail : Bool),
      match getOrCreateSession db gid fail with
      | Except.ok (db1, s) =>
          roundOf db1 gid = roundOf db gid ∧ s.round_number = roundOf db gid
      | Except.error d => d = db) ∧
    (∀ (db : DB) (g : Nat) (force : Bool) (ai : Option AIResult) (now : Int)
        (game : GameRec) (s : SessionRec),
      findGame db g = some game → game.status = GameStatus.active →
      findSession db g = some s →
      should_process_round (rosterFor db g).length (pendingFor db g) force now = true →
      (process_round db g force ai now noFail).raised = false ∧
      roundOf (process_round db g force ai now noFail).db g = roundOf db g + 1) :=
  ⟨roundOf_process_round_step, roundOf_queue, roundOf_applyOps_mono,
    getOrCreate_roundOf_cases, committed_increments⟩

/-- C5 witness: a concrete active game with quorum and no failure
injection: the committed resolution advances the round number from 9 to
exactly 10 without raising. -/
theorem c5_witness :
    (process_round dbQuorum 5 false none 0 noFail).raised = false ∧
    roundOf (process_round dbQuorum 5 false none 0 noFail).db 5 = roundOf dbQuorum 5 + 1 :=
  c5_theorem.2.2.2.2 dbQuorum 5 false none 0 ⟨5, GameStatus.active⟩ ⟨5, 9, some 50⟩
    (by decide) rfl (by decide) (by decide)

/-- C6: for every game whose status is not ACTIVE (PAUSED, WAITING or
ENDED) and whose session row exists (as game creation guarantees),
process_round returns none and leaves the whole database unchanged,
regardless of force, pending actions, clock or failure injection. -/
theorem c6_theorem : ∀ (db : DB) (gid : Nat) (force : Bool) (ai : Option AIResult)
    (now : Int) (fs : FailSpec) (g : GameRec) (s : SessionRec),
    findGame db gid = some g → g.status ≠ GameStatus.active →
    findSession db gid = some s →
    process_round db gid force ai now fs = ⟨none, db, false⟩ := by
  intro db gid force ai now fs g s h1 h2 h3
  unfold process_round process_round_body
  rw [h1]
  dsimp only
  rw [getOrCreate_found db gid fs.failCreate s h3]
  dsimp only
  rw [if_neg h2]

/-- C6 witness: a concrete paused game with a pending action and a
forced call. -/
theorem c6_witness :
    process_round dbPaused 3 true (some AIResult.raises) 99999 noFail =
      ⟨none, dbPaused, false⟩ :=
  c6_theorem dbPaused 3 true (some AIResult.raises) 99999 noFail
    ⟨3, GameStatus.paused⟩ ⟨3, 7, some 30⟩ (by decide) (by decide) (by decide)

/-- C7 counterexample: the scheduler as the claim words it disagrees
with the code.  With a roster of two and pending actions from two
distinct players of which only one is on the roster, quorum as worded is
incomplete and the timeout has not elapsed, yet the code resolves
(it compares the count of distinct acting players with the roster size);
and at an age exactly equal to ROUND_TIMEOUT_SECONDS the code resolves
although the age does not strictly exceed the timeout. -/
theorem c7_counterexample :
    should_process_round 2 [schedAct1, schedAct3] false 0 = true ∧
    shouldResolveSpec [1, 2] [schedAct1, schedAct3] false 0 = false ∧
    should_process_round 2 [schedAct1] false 300 = true ∧
    shouldResolveSpec [1, 2] [schedAct1] false 300 = false := by decide

/-- C7 (amended): the scheduler computes, in order: force resolves
immediately; no pending actions never resolves; once the pending count
reaches MIN_PLAYERS_FOR_ROUND it resolves when the number of distinct
acting players is at least the roster size, and otherwise exactly when
the age of the oldest pending action is at least ROUND_TIMEOUT_SECONDS.
In particular a roster of 2 with one pending action resolves only once
that age reaches the timeout. -/
theorem c7_theorem :
    (∀ (np : Nat) (pending : List ActionRec) (force : Bool) (now : Int),
      should_process_round np pending force now =
        shouldResolveAmended np pending force now) ∧
    should_process_round 2 [schedAct1] false 100 = false ∧
    should_process_round 2 [schedAct1] false 301 = true ∧
    should_process_round 2 [] false 100000 = false ∧
    should_process_round 2 [] true 0 = true :=
  ⟨sched_eq_amended, by decide, by decide, by decide, by decide⟩

/-- C8: the per-game exclusion of engine.py lines 44-49 under the
asyncio interleaving model: in every reachable state at most one task is
past the check-and-set (mutual exclusion), and a task that attempts the
check while the token is held moves in one atomic step to its busy
return, changing neither the commit count nor the token. -/
theorem c8_theorem :
    ∀ s : ConcState, ConcReachable s →
      (¬(s.phaseA = TaskPhase.running ∧ s.phaseB = TaskPhase.running)) ∧
      (∀ (i : TaskId) (t : ConcState), phase s i = TaskPhase.idle → s.held = true →
        ConcStep i s t →
        t = setPhase s i TaskPhase.doneBusy ∧ t.commits = s.commits ∧
          t.held = s.held) := by
  intro s hs
  refine ⟨(conc_inv_of_reachable hs).2.2, ?_⟩
  intro i t hp hh hstep
  cases hstep with
  | startBusy _ _ _ _ =>
    exact ⟨rfl, by cases i <;> rfl, by cases i <;> rfl⟩
  | startAcquire _ _ _ hh2 =>
    rw [hh] at hh2
    exact absurd hh2 (by decide)
  | finish _ _ hrun =>
    rw [hp] at hrun
    exact absurd hrun (by decide)

/-- C8 witness: the initial state, where both callers are about to
start, satisfies mutual exclusion. -/
theorem c8_witness :
    ¬(initConc.phaseA = TaskPhase.running ∧ initConc.phaseB = TaskPhase.running) :=
  (c8_theorem initConc ConcReachable.init).1

/-- C9 counterexample: a persistence failure at the
mark_actions_processed commit does not propagate to the caller: the try
block raised, the broad except handler swallowed the exception, and the
caller receives a plain none with the database unchanged, although the
claim asserts persistence failures are surfaced as errors. -/
theorem c9_counterexample :
    process_round exampleDb2 2 false none 0 ⟨false, true, false, false⟩ =
      ⟨none, exampleDb2, true⟩ := by decide

/-- C9 (amended): no failure of any kind propagates out of
process_round: whenever the try block raised (any persistence failure at
any commit), the caller receives none, exactly as for an admission or
scheduling decline; narration failures are likewise absorbed into the
fallback before the commits. -/
theorem c9_theorem : ∀ (db : DB) (g : Nat) (force : Bool) (ai : Option AIResult)
    (now : Int) (fs : FailSpec),
    (process_round db g force ai now fs).raised = true →
    (process_round db g force ai now fs).ret = none := by
  intro db g force ai now fs h
  unfold process_round at h ⊢
  cases hb : process_round_body db g force ai now fs with
  | ok p =>
    rw [hb] at h
    obtain ⟨r, d⟩ := p
    simp at h
  | error d => rfl

/-- C9 witness: the counterexample run, where the theorem applies: a
raising run returns none. -/
theorem c9_witness :
    (process_round exampleDb2 2 false none 0 ⟨false, true, false, false⟩).raised = true ∧
    (process_round exampleDb2 2 false none 0 ⟨false, true, false, false⟩).ret = none :=
  ⟨by decide, c9_theorem exampleDb2 2 false none 0 ⟨false, true, false, false⟩ (by decide)⟩

/-- C10: for every ACTIVE game with a session and no pending actions,
process_round with force still advances round_number by exactly 1 and
clears current_turn, while returning no narrative, appending no log
entry, and touching no action. -/
theorem c10_theorem : ∀ (db : DB) (gid : Nat) (ai : Option AIResult) (now : Int)
    (g : GameRec) (s : SessionRec),
    findGame db gid = some g → g.status = GameStatus.active →
    findSession db gid = some s → pendingFor db gid = [] →
    (process_round db gid true ai now noFail).ret = none ∧
    (process_round db gid true ai now noFail).raised = false ∧
    roundOf (process_round db gid true ai now noFail).db gid = s.round_number + 1 ∧
    currentTurnOf (process_round db gid true ai now noFail).db gid = none ∧
    (process_round db gid true ai now noFail).db.actions = db.actions ∧
    (process_round db gid true ai now noFail).db.logs = db.logs := by
  intro db gid ai now g s h1 h2 h3 h4
  have hcore := core_nil_force_noFail db gid ai now s s.round_number h4 h3
  have hpr : process_round db gid true ai now noFail =
      ⟨none, { db with sessions := db.sessions.map (advanceSessionRow gid) }, false⟩ := by
    unfold process_round process_round_body
    rw [h1]
    dsimp only
    rw [getOrCreate_found db gid noFail.failCreate s h3]
    dsimp only
    rw [if_pos h2, hcore]
  rw [hpr]
  exact ⟨rfl, rfl, roundOf_mapAdvance_self db gid s h3,
    currentTurn_mapAdvance_self db gid s h3, rfl, rfl⟩

/-- C10 witness: a concrete active game with no pending actions and a
forced call: the round number advances from 5 to 6 with no narrative and
no new log entry. -/
theorem c10_witness :
    (process_round dbIdle 4 true none 0 noFail).ret = none ∧
    (process_round dbIdle 4 true none 0 noFail).raised = false ∧
    roundOf (process_round dbIdle 4 true none 0 noFail).db 4 = 6 ∧
    currentTurnOf (process_round dbIdle 4 true none 0 noFail).db 4 = none ∧
    (process_round dbIdle 4 true none 0 noFail).db.actions = dbIdle.actions ∧
    (process_round dbIdle 4 true none 0 noFail).db.logs = dbIdle.logs :=
  c10_theorem dbIdle 4 none 0 ⟨4, GameStatus.active⟩ ⟨4, 5, some 40⟩
    (by decide) rfl (by decide) (by decide)

end DndBot
